import Mathlib

/-
  Verification development for the xnu kperf/kpc performance-counter demo
  (src/counters.c).  The C program is shallowly embedded: every external
  kernel/framework call is an oracle value supplied through an environment
  structure, machine integers are Nat with explicit reduction modulo 2^w
  where overflow matters, and stateful functions are modelled as pure
  functions from an environment (and an explicit state) to a result that
  also records the sequence of external calls performed.
-/

namespace HwPerfCounters

/-! ### Cross-platform class constants (counters.c lines 81-90) -/

def KPC_CLASS_FIXED : Nat := 0
def KPC_CLASS_CONFIGURABLE : Nat := 1
def KPC_CLASS_POWER : Nat := 2
def KPC_CLASS_RAWPMU : Nat := 3

def KPC_CLASS_FIXED_MASK : Nat := 1 <<< KPC_CLASS_FIXED
def KPC_CLASS_CONFIGURABLE_MASK : Nat := 1 <<< KPC_CLASS_CONFIGURABLE
def KPC_CLASS_POWER_MASK : Nat := 1 <<< KPC_CLASS_POWER
def KPC_CLASS_RAWPMU_MASK : Nat := 1 <<< KPC_CLASS_RAWPMU

def KPC_MAX_COUNTERS : Nat := 32

/-! ### Event aliases and event resolution (counters.c lines 880-925)

The C `event_alias` holds a display name plus a fixed array of
`EVENT_NAME_MAX = 8` candidate name slots; unset trailing slots are NULL
pointers, modelled as `none`.  `kpep_db_event` is an external lookup,
modelled as a function from event name to an optional opaque handle
(`Nat`); it returns 0 (success) exactly when the lookup yields `some`. -/

def EVENT_NAME_MAX : Nat := 8

structure event_alias where
  alias_name : String
  names : List (Option String)
deriving DecidableEq

/-- The loop body of `get_event` (counters.c lines 915-923): walk the
candidate slots in order, stop at the first NULL slot, return the handle
for the first name the database resolves. -/
def get_event_loop (dbf : String → Option Nat) : List (Option String) → Option Nat
  | [] => none
  | none :: _ => none
  | some n :: rest =>
    match dbf n with
    | some ev => some ev
    | none => get_event_loop dbf rest

/-- `get_event` (counters.c lines 914-925). -/
def get_event (dbf : String → Option Nat) (a : event_alias) : Option Nat :=
  get_event_loop dbf a.names

/-- The `profile_events` table (counters.c lines 887-912), with the fixed
8-slot candidate arrays and their NULL-terminated tails. -/
def profile_events : List event_alias :=
  [⟨"cycles",
    [some "FIXED_CYCLES", some "CPU_CLK_UNHALTED.THREAD",
     some "CPU_CLK_UNHALTED.CORE", none, none, none, none, none]⟩,
   ⟨"instructions",
    [some "FIXED_INSTRUCTIONS", some "INST_RETIRED.ANY",
     none, none, none, none, none, none]⟩,
   ⟨"branches",
    [some "INST_BRANCH", some "BR_INST_RETIRED.ALL_BRANCHES",
     some "INST_RETIRED.ANY", none, none, none, none, none]⟩,
   ⟨"branch-misses",
    [some "BRANCH_MISPRED_NONSPEC", some "BRANCH_MISPREDICT",
     some "BR_MISP_RETIRED.ALL_BRANCHES", some "BR_INST_RETIRED.MISPRED",
     none, none, none, none]⟩]

/-- The event-resolution loop of `performance_counters_init`
(counters.c lines 988-994): resolve each alias in order, returning the
display name of the first alias with no matching event as the error. -/
def resolve_all (dbf : String → Option Nat) :
    List event_alias → Except String (List Nat)
  | [] => Except.ok []
  | a :: rest =>
    match get_event dbf a with
    | none => Except.error a.alias_name
    | some ev =>
      match resolve_all dbf rest with
      | Except.error e => Except.error e
      | Except.ok evs => Except.ok (ev :: evs)

/-! ### kpep error descriptions (counters.c lines 396-442) -/

def kpep_config_error_names : List String :=
  ["none", "invalid argument", "out of memory", "I/O", "buffer too small",
   "current system unknown", "database path invalid", "database not found",
   "database architecture unsupported", "database version unsupported",
   "database corrupt", "event not found", "conflicting events",
   "all counters must be forced", "event unavailable", "check errno"]

def KPEP_CONFIG_ERROR_MAX : Nat := kpep_config_error_names.length

/-- `kpep_config_error_desc` (counters.c lines 437-442). -/
def kpep_config_error_desc (code : Int) : String :=
  if 0 ≤ code ∧ code < (KPEP_CONFIG_ERROR_MAX : Int) then
    kpep_config_error_names.getD code.toNat "unknown error"
  else "unknown error"

/-! ### A specification-side restatement of event resolution

`resolve_spec` is written after the words of the specification ("tries
each candidate name in order, returns the first hit"): the candidates
before the NULL terminator, looked up in order, first hit wins.  It is
compared against the source-derived `get_event` in claim C3. -/

def resolve_spec (dbf : String → Option Nat) (a : event_alias) : Option Nat :=
  ((a.names.takeWhile Option.isSome).filterMap (fun o => o.bind dbf)).head?

theorem get_event_loop_eq_spec (dbf : String → Option Nat) :
    ∀ l : List (Option String),
      get_event_loop dbf l =
        ((l.takeWhile Option.isSome).filterMap (fun o => o.bind dbf)).head?
  | [] => rfl
  | none :: rest => by
    simp [get_event_loop, List.takeWhile]
  | some n :: rest => by
    rw [get_event_loop]
    cases h : dbf n with
    | none =>
      simp [List.takeWhile, List.filterMap_cons, h,
        get_event_loop_eq_spec dbf rest]
    | some ev =>
      simp [List.takeWhile, List.filterMap_cons, h]

/-! ### `performance_counters_init` (counters.c lines 953-1035)

Each external call made by `performance_counters_init` is an oracle in
`InitEnv`: the `_ret` fields are the integer return codes of the
corresponding kperf/kperfdata calls, and the `_out` fields are the values
those calls write through their out-pointers on success.  `dbf` is the
`kpep_db_event` lookup of the opened database.  The result records the
error string returned (`none` = NULL = success), the final values of the
global configuration variables, and whether `kpc_set_config` was invoked
(`wrote_config`).  Globals partially written before a failing step are
not tracked: on an error path the result carries defaults. -/

structure InitEnv where
  lib_ok : Bool
  lib_err : String
  force_get_ret : Int
  db_create_ret : Int
  dbf : String → Option Nat
  config_create_ret : Int
  force_counters_ret : Int
  add_event_ret : Nat → Int
  classes_out : Nat
  classes_ret : Int
  count_out : Nat
  count_ret : Int
  map_out : List Nat
  map_ret : Int
  regs_out : List Nat
  regs_ret : Int
  force_set_ret : Int
  set_config_ret : Int

structure InitResult where
  err : Option String
  classes : Nat
  reg_count : Nat
  counter_map : List Nat
  regs : List Nat
  wrote_config : Bool
deriving DecidableEq

def init_error (msg : String) : InitResult :=
  ⟨some msg, 0, 0, [], [], false⟩

def ev_count : Nat := profile_events.length

def performance_counters_init (env : InitEnv) : InitResult :=
  if ¬ env.lib_ok then init_error env.lib_err
  else if env.force_get_ret ≠ 0 then
    init_error "Permission denied, xnu/kpc requires root privileges.\n"
  else if env.db_create_ret ≠ 0 then
    init_error "Error: cannot load pmc database"
  else if env.config_create_ret ≠ 0 then
    init_error (kpep_config_error_desc env.config_create_ret)
  else if env.force_counters_ret ≠ 0 then
    init_error (kpep_config_error_desc env.force_counters_ret)
  else
    match resolve_all env.dbf profile_events with
    | Except.error name => init_error name
    | Except.ok _ =>
      match (List.range ev_count).find? (fun i => decide (env.add_event_ret i ≠ 0)) with
      | some i => init_error (kpep_config_error_desc (env.add_event_ret i))
      | none =>
        if env.classes_ret ≠ 0 then init_error (kpep_config_error_desc env.classes_ret)
        else if env.count_ret ≠ 0 then init_error (kpep_config_error_desc env.count_ret)
        else if env.map_ret ≠ 0 then init_error (kpep_config_error_desc env.map_ret)
        else if env.regs_ret ≠ 0 then init_error "Failed get kpc registers"
        else if env.force_set_ret ≠ 0 then init_error "Failed force all ctrs"
        else if env.classes_out &&& KPC_CLASS_CONFIGURABLE_MASK ≠ 0 ∧ env.count_out ≠ 0 then
          if env.set_config_ret ≠ 0 then
            ⟨some "Failed set kpc config", env.classes_out, env.count_out,
             env.map_out, env.regs_out, true⟩
          else
            ⟨none, env.classes_out, env.count_out, env.map_out, env.regs_out, true⟩
        else
          ⟨none, env.classes_out, env.count_out, env.map_out, env.regs_out, false⟩

/-! ### `performance_counters_start` (counters.c lines 1037-1054)

The trace records, in order, the external kpc calls performed:
`kpc_set_counting(classes)`, `kpc_set_thread_counting(classes)` and the
"before" snapshot read `kpc_get_thread_counters`. -/

inductive StartCall where
  | setCounting (classes : Nat)
  | setThreadCounting (classes : Nat)
  | readBefore
deriving DecidableEq

structure StartEnv where
  set_counting_ret : Int
  set_thread_counting_ret : Int
  read_before_ret : Int
  read_before_vals : List Nat

structure StartResult where
  err : Option String
  counters_0 : List Nat
  calls : List StartCall
deriving DecidableEq

def performance_counters_start (classes : Nat) (env : StartEnv) : StartResult :=
  if env.set_counting_ret ≠ 0 then
    ⟨some "Failed set counting", [], [StartCall.setCounting classes]⟩
  else if env.set_thread_counting_ret ≠ 0 then
    ⟨some "Failed set thread counting", [],
     [StartCall.setCounting classes, StartCall.setThreadCounting classes]⟩
  else if env.read_before_ret ≠ 0 then
    ⟨some "Failed get thread counters before", [],
     [StartCall.setCounting classes, StartCall.setThreadCounting classes,
      StartCall.readBefore]⟩
  else
    ⟨none, env.read_before_vals,
     [StartCall.setCounting classes, StartCall.setThreadCounting classes,
      StartCall.readBefore]⟩

/-! ### `performance_counters_stop` (counters.c lines 1056-1077)

The trace records the "after" snapshot read and the three teardown calls
`kpc_set_counting(0)`, `kpc_set_thread_counting(0)`,
`kpc_force_all_ctrs_set(0)`.  The C code discards the return values of
the three teardown calls, so their oracle codes sit unused in the
environment.  u64 counter subtraction wraps modulo 2^64. -/

inductive StopCall where
  | readAfter
  | disableCounting
  | disableThreadCounting
  | releaseForcedCtrs
deriving DecidableEq

structure StopEnv where
  read_after_ret : Int
  read_after_vals : List Nat
  set_counting_ret : Int
  set_thread_counting_ret : Int
  force_release_ret : Int

structure StopState where
  counters_0 : List Nat
  counter_map : List Nat

structure StopResult where
  err : Option String
  values : List Nat
  calls : List StopCall
deriving DecidableEq

/-- u64 subtraction `a - b` on values reduced modulo 2^64. -/
def sub64 (a b : Nat) : Nat :=
  (2 ^ 64 + a % 2 ^ 64 - b % 2 ^ 64) % 2 ^ 64

def performance_counters_stop (env : StopEnv) (st : StopState) : StopResult :=
  if env.read_after_ret ≠ 0 then
    ⟨some "Failed get thread counters after", [], [StopCall.readAfter]⟩
  else
    ⟨none,
     (List.range 4).map (fun i =>
       sub64 (env.read_after_vals.getD (st.counter_map.getD i 0) 0)
             (st.counters_0.getD (st.counter_map.getD i 0) 0)),
     [StopCall.readAfter, StopCall.disableCounting,
      StopCall.disableThreadCounting, StopCall.releaseForcedCtrs]⟩

/-! ### Platform binding: `lib_init` / `lib_deinit` (counters.c lines 568-721)

The module-level binding state is the flags `lib_inited` / `lib_has_err`,
the error message buffer, the two `dlopen` handles and the two symbol
pointer tables (one Bool per pointer: loaded or NULL).  The environment
supplies the outcome of each `dlopen` / `dlsym` the code might attempt.
The result records the boolean return, the new state, and which load
steps were performed (empty when a cached result is returned). -/

def lib_symbols_kperf : List String :=
  ["kpc_pmu_version", "kpc_cpu_string", "kpc_set_counting", "kpc_get_counting",
   "kpc_set_thread_counting", "kpc_get_thread_counting", "kpc_get_config_count",
   "kpc_get_counter_count", "kpc_set_config", "kpc_get_config",
   "kpc_get_cpu_counters", "kpc_get_thread_counters", "kpc_force_all_ctrs_set",
   "kpc_force_all_ctrs_get", "kperf_action_count_set", "kperf_action_count_get",
   "kperf_action_samplers_set", "kperf_action_samplers_get",
   "kperf_action_filter_set_by_task", "kperf_action_filter_set_by_pid",
   "kperf_timer_count_set", "kperf_timer_count_get", "kperf_timer_period_set",
   "kperf_timer_period_get", "kperf_timer_action_set", "kperf_timer_action_get",
   "kperf_sample_set", "kperf_sample_get", "kperf_reset", "kperf_timer_pet_set",
   "kperf_timer_pet_get", "kperf_ns_to_ticks", "kperf_ticks_to_ns",
   "kperf_tick_frequency"]

def lib_symbols_kperfdata : List String :=
  ["kpep_config_create", "kpep_config_free", "kpep_config_add_event",
   "kpep_config_remove_event", "kpep_config_force_counters",
   "kpep_config_events_count", "kpep_config_events", "kpep_config_kpc",
   "kpep_config_kpc_count", "kpep_config_kpc_classes", "kpep_config_kpc_map",
   "kpep_db_create", "kpep_db_free", "kpep_db_name", "kpep_db_aliases_count",
   "kpep_db_aliases", "kpep_db_counters_count", "kpep_db_events_count",
   "kpep_db_events", "kpep_db_event", "kpep_event_name", "kpep_event_alias",
   "kpep_event_description"]

structure LibEnv where
  dlopen_kperf_ok : Bool
  dlopen_kperfdata_ok : Bool
  dlerror_msg : String
  dlsym_kperf : Nat → Bool
  dlsym_kperfdata : Nat → Bool

structure LibState where
  inited : Bool
  has_err : Bool
  err_msg : String
  handle_kperf : Bool
  handle_kperfdata : Bool
  syms_kperf : List Bool
  syms_kperfdata : List Bool

inductive LibCall where
  | dlopenKperf
  | dlopenKperfdata
  | dlsymKperf
  | dlsymKperfdata
deriving DecidableEq

/-- The initial module state: all statics zero / NULL. -/
def lib_state_initial : LibState :=
  ⟨false, false, "", false, false,
   List.replicate lib_symbols_kperf.length false,
   List.replicate lib_symbols_kperfdata.length false⟩

/-- `lib_deinit` (counters.c lines 651-668): clear the flags, close and
clear both handles, NULL out every symbol pointer.  The error message
buffer is not touched. -/
def lib_deinit (st : LibState) : LibState :=
  ⟨false, false, st.err_msg, false, false,
   List.replicate lib_symbols_kperf.length false,
   List.replicate lib_symbols_kperfdata.length false⟩

/-- The `return_err()` macro of `lib_init` (counters.c lines 671-677):
write the message, run `lib_deinit`, then mark `lib_inited` and
`lib_has_err`. -/
def lib_fail (msg : String) (st : LibState) : LibState :=
  { lib_deinit st with inited := true, has_err := true, err_msg := msg }

/-- `lib_init` (counters.c lines 670-721). -/
def lib_init (env : LibEnv) (st : LibState) : Bool × LibState × List LibCall :=
  if st.inited then (! st.has_err, st, [])
  else if ¬ env.dlopen_kperf_ok then
    (false,
     lib_fail ("Failed to load kperf.framework, message: " ++ env.dlerror_msg ++ ".") st,
     [LibCall.dlopenKperf])
  else if ¬ env.dlopen_kperfdata_ok then
    (false,
     lib_fail ("Failed to load kperfdata.framework, message: " ++ env.dlerror_msg ++ ".") st,
     [LibCall.dlopenKperf, LibCall.dlopenKperfdata])
  else
    match (List.range lib_symbols_kperf.length).find? (fun i => ! env.dlsym_kperf i) with
    | some i =>
      (false,
       lib_fail ("Failed to load kperf function: " ++ lib_symbols_kperf.getD i "" ++ ".") st,
       [LibCall.dlopenKperf, LibCall.dlopenKperfdata, LibCall.dlsymKperf])
    | none =>
      match (List.range lib_symbols_kperfdata.length).find? (fun i => ! env.dlsym_kperfdata i) with
      | some i =>
        (false,
         lib_fail ("Failed to load kperfdata function: " ++ lib_symbols_kperfdata.getD i "" ++ ".") st,
         [LibCall.dlopenKperf, LibCall.dlopenKperfdata, LibCall.dlsymKperf,
          LibCall.dlsymKperfdata])
      | none =>
        (true,
         ⟨true, false, st.err_msg, true, true,
          List.replicate lib_symbols_kperf.length true,
          List.replicate lib_symbols_kperfdata.length true⟩,
         [LibCall.dlopenKperf, LibCall.dlopenKperfdata, LibCall.dlsymKperf,
          LibCall.dlsymKperfdata])

/-! ### `kdebug_trace_read` (counters.c lines 844-859)

`buf_nonnull` models whether the buffer pointer is non-NULL and
`count_present` whether the `count` out-pointer is non-NULL.  The result
is the returned int, the value left in `*count` (when present), and
whether the `sysctl` kernel read was attempted.  The environment gives
the sysctl return code and the entry count it reports on success. -/

structure KdReadEnv where
  sysctl_ret : Int
  sysctl_count : Nat

def kdebug_trace_read (buf_nonnull : Bool) (len : Nat) (count_present : Bool)
    (env : KdReadEnv) : Int × Option Nat × Bool :=
  if ¬ buf_nonnull ∨ len = 0 then
    (-1, if count_present then some 0 else none, false)
  else if env.sysctl_ret ≠ 0 then
    (env.sysctl_ret, if count_present then some 0 else none, true)
  else (0, if count_present then some env.sysctl_count else none, true)

/-! ### Trace decode and per-thread aggregation (counters.c lines 1383-1454)

The decode pass of `main2` scans the compacted `kd_buf` log.  A record
whose debugid has the `DBG_FUNC_START` function flag and whose thread id
(`(u32)arg5`) is nonzero opens a logical sample; its four argument words
are the first four counter values.  When `counter_count` exceeds 4, the
records immediately following with the same thread id and without the
start flag contribute up to four further values each, until
`counter_count` values are collected or the scan is cut short; a sample
with fewer than `counter_count` values is dropped.  Complete samples are
then folded into the `kpc_thread_data` table: the first sample of a
thread fills the slot-0 snapshot (selected by `timestamp_0 == 0`), every
later one overwrites the slot-1 snapshot. -/

def KDBG_FUNC_MASK : Nat := 3
def DBG_FUNC_START : Nat := 1

structure kd_buf where
  timestamp : Nat
  arg1 : Nat
  arg2 : Nat
  arg3 : Nat
  arg4 : Nat
  arg5 : Nat
  debugid : Nat
deriving DecidableEq

/-- `(u32)buf->arg5`, the thread id of a record. -/
def kd_tid (b : kd_buf) : Nat := b.arg5 % 2 ^ 32

/-- `buf->debugid & KDBG_FUNC_MASK`. -/
def kd_func (b : kd_buf) : Nat := b.debugid &&& KDBG_FUNC_MASK

/-- The four generic argument words of a record, in order. -/
def kd_args (b : kd_buf) : List Nat := [b.arg1, b.arg2, b.arg3, b.arg4]

/-- The continuation scan (counters.c lines 1398-1419): starting from the
records after a start record, append up to four argument words per record
while the thread id matches and the record is not a new start, stopping
as soon as `cc` values are collected. -/
def collect_cont (cc : Nat) (tid : Nat) (acc : List Nat) :
    List kd_buf → List Nat
  | [] => acc
  | b :: rest =>
    if kd_tid b ≠ tid then acc
    else if kd_func b = DBG_FUNC_START then acc
    else if (acc ++ List.take (cc - acc.length) (kd_args b)).length = cc then
      acc ++ List.take (cc - acc.length) (kd_args b)
    else collect_cont cc tid (acc ++ List.take (cc - acc.length) (kd_args b)) rest

/-- Decode of one logical sample from a start record `b` followed by
`rest` (counters.c lines 1391-1421): the four argument words of `b`, the
continuation scan when more are needed, and the truncation check
`ci != counter_count`. -/
def decode_sample (cc : Nat) (b : kd_buf) (rest : List kd_buf) :
    Option (List Nat) :=
  let counters := if (kd_args b).length < cc then
                    collect_cont cc (kd_tid b) (kd_args b) rest
                  else kd_args b
  if counters.length = cc then some counters else none

/-- The outer decode scan (counters.c lines 1383-1421): every start
record with a nonzero thread id yields its complete logical sample
(thread id, timestamp, counter values); truncated samples are skipped. -/
def decode_all (cc : Nat) : List kd_buf → List (Nat × Nat × List Nat)
  | [] => []
  | b :: rest =>
    if kd_func b = DBG_FUNC_START ∧ kd_tid b ≠ 0 then
      match decode_sample cc b rest with
      | some cs => (kd_tid b, b.timestamp, cs) :: decode_all cc rest
      | none => decode_all cc rest
    else decode_all cc rest

/-- Specification-side restatement of one logical sample, written after
the words of the specification: the start record contributes its four
argument words, the run of immediately following records with the same
thread id and no start flag contribute theirs in order, and the first
`cc` collected values form the sample. -/
def spec_cont_run (tid : Nat) (bufs : List kd_buf) : List kd_buf :=
  bufs.takeWhile (fun b => decide (kd_tid b = tid) && ! decide (kd_func b = DBG_FUNC_START))

def spec_sample (cc : Nat) (b : kd_buf) (rest : List kd_buf) : List Nat :=
  (kd_args b ++ (spec_cont_run (kd_tid b) rest).flatMap kd_args).take cc

/-- `kpc_thread_data` (counters.c lines 1367-1373).  The two counter
snapshots hold the `counter_count` copied values; the untouched zero tail
of the fixed 32-slot C arrays is elided. -/
structure kpc_thread_data where
  tid : Nat
  timestamp_0 : Nat
  timestamp_1 : Nat
  counters_0 : List Nat
  counters_1 : List Nat
deriving DecidableEq

/-- A freshly `memset` entry with its tid filled in (counters.c lines
1444-1445). -/
def thread_data_zero (tid : Nat) : kpc_thread_data :=
  ⟨tid, 0, 0, [], []⟩

/-- Storing one complete sample into an entry (counters.c lines
1447-1453): slot 0 if `timestamp_0` is still zero, slot 1 otherwise. -/
def record_sample (d : kpc_thread_data) (ts : Nat) (cs : List Nat) :
    kpc_thread_data :=
  if d.timestamp_0 = 0 then { d with timestamp_0 := ts, counters_0 := cs }
  else { d with timestamp_1 := ts, counters_1 := cs }

/-- The find-or-append step over the thread table (counters.c lines
1424-1453): the first entry with a matching tid is updated in place; when
none exists a zeroed entry is appended and updated. -/
def add_thread_sample (ts : Nat) (cs : List Nat) (tid : Nat) :
    List kpc_thread_data → List kpc_thread_data
  | [] => [record_sample (thread_data_zero tid) ts cs]
  | d :: rest =>
    if d.tid = tid then record_sample d ts cs :: rest
    else d :: add_thread_sample ts cs tid rest

/-- The aggregation loop over all decoded complete samples. -/
def aggregate_samples (samples : List (Nat × Nat × List Nat)) :
    List kpc_thread_data :=
  samples.foldl (fun th s => add_thread_sample s.2.1 s.2.2 s.1 th) []

/-- Decode followed by aggregation: the whole pass of `main2` over the
collected trace log. -/
def decode_and_aggregate (cc : Nat) (bufs : List kd_buf) :
    List kpc_thread_data :=
  aggregate_samples (decode_all cc bufs)

/-! ## Claim theorems -/

/-- Claim C10: when `kdebug_trace_read` is called with a NULL buffer
pointer or a zero byte length, it returns -1 without attempting the
kernel `sysctl` read, and when the count out-pointer is present it has
been set to 0 before returning. -/
theorem kdebug_trace_read_rejects_bad_args (buf_nonnull : Bool) (len : Nat)
    (count_present : Bool) (env : KdReadEnv)
    (h : buf_nonnull = false ∨ len = 0) :
    (kdebug_trace_read buf_nonnull len count_present env).1 = -1 ∧
    (kdebug_trace_read buf_nonnull len count_present env).2.2 = false ∧
    (count_present = true →
      (kdebug_trace_read buf_nonnull len count_present env).2.1 = some 0) := by
  have hcond : ¬ buf_nonnull = true ∨ len = 0 := by
    rcases h with h | h
    · exact Or.inl (by simp [h])
    · exact Or.inr h
  have hres : kdebug_trace_read buf_nonnull len count_present env =
      (-1, if count_present then some 0 else none, false) := by
    unfold kdebug_trace_read
    rw [if_pos hcond]
  exact ⟨by rw [hres], by rw [hres], fun hc => by rw [hres]; simp [hc]⟩

/-- Claim C10 witness: NULL buffer, nonzero length, count pointer
present. -/
theorem kdebug_trace_read_rejects_bad_args_witness :
    (kdebug_trace_read false 5 true ⟨0, 7⟩).1 = -1 ∧
    (kdebug_trace_read false 5 true ⟨0, 7⟩).2.2 = false ∧
    (kdebug_trace_read false 5 true ⟨0, 7⟩).2.1 = some 0 := by
  have h := kdebug_trace_read_rejects_bad_args false 5 true ⟨0, 7⟩ (Or.inl rfl)
  exact ⟨h.1, h.2.1, h.2.2 rfl⟩

/-- Claim C5: `performance_counters_start` enables counting globally,
then for the current thread, and the "before" snapshot read is attempted
exactly when both enables succeeded; the call trace never contains the
snapshot read before the two enables. -/
theorem start_snapshot_follows_enables (classes : Nat) (env : StartEnv) :
    ((performance_counters_start classes env).calls =
        [StartCall.setCounting classes] ∨
     (performance_counters_start classes env).calls =
        [StartCall.setCounting classes, StartCall.setThreadCounting classes] ∨
     (performance_counters_start classes env).calls =
        [StartCall.setCounting classes, StartCall.setThreadCounting classes,
         StartCall.readBefore]) ∧
    (StartCall.readBefore ∈ (performance_counters_start classes env).calls ↔
       env.set_counting_ret = 0 ∧ env.set_thread_counting_ret = 0) ∧
    ((performance_counters_start classes env).err = none →
       (performance_counters_start classes env).counters_0 = env.read_before_vals) := by
  by_cases h1 : env.set_counting_ret = 0
  · by_cases h2 : env.set_thread_counting_ret = 0
    · by_cases h3 : env.read_before_ret = 0 <;>
        simp [performance_counters_start, h1, h2, h3]
    · simp [performance_counters_start, h1, h2]
  · simp [performance_counters_start, h1]

/-- Claim C5 witness: with both enables succeeding the snapshot read is
performed and captures the oracle values. -/
theorem start_snapshot_follows_enables_witness :
    StartCall.readBefore ∈ (performance_counters_start 3 ⟨0, 0, 0, [9]⟩).calls ∧
    (performance_counters_start 3 ⟨0, 0, 0, [9]⟩).counters_0 = [9] := by
  have h := start_snapshot_follows_enables 3 ⟨0, 0, 0, [9]⟩
  exact ⟨h.2.1.mpr ⟨rfl, rfl⟩, h.2.2 rfl⟩

/-- Claim C1 counterexample: when the "after" snapshot read fails,
`performance_counters_stop` returns the read error having performed no
teardown call at all, so the teardown is not executed unconditionally. -/
theorem stop_teardown_skipped_on_read_failure :
    (performance_counters_stop ⟨1, [], 0, 0, 0⟩ ⟨[], []⟩).calls = [StopCall.readAfter] ∧
    StopCall.disableCounting ∉ (performance_counters_stop ⟨1, [], 0, 0, 0⟩ ⟨[], []⟩).calls ∧
    StopCall.disableThreadCounting ∉ (performance_counters_stop ⟨1, [], 0, 0, 0⟩ ⟨[], []⟩).calls ∧
    StopCall.releaseForcedCtrs ∉ (performance_counters_stop ⟨1, [], 0, 0, 0⟩ ⟨[], []⟩).calls ∧
    (performance_counters_stop ⟨1, [], 0, 0, 0⟩ ⟨[], []⟩).err =
      some "Failed get thread counters after" := by
  refine ⟨rfl, ?_, ?_, ?_, rfl⟩ <;> decide

/-- Claim C1 (amended): the teardown steps run exactly when the "after"
snapshot read succeeds; on a successful read all three teardown calls are
performed and their return codes (arbitrary in the environment) never
influence the result, while on a failed read the function returns the
read error immediately with no teardown performed. -/
theorem stop_teardown_on_successful_read_only (env : StopEnv) (st : StopState) :
    (env.read_after_ret = 0 →
       (performance_counters_stop env st).calls =
         [StopCall.readAfter, StopCall.disableCounting,
          StopCall.disableThreadCounting, StopCall.releaseForcedCtrs] ∧
       (performance_counters_stop env st).err = none) ∧
    (env.read_after_ret ≠ 0 →
       (performance_counters_stop env st).calls = [StopCall.readAfter] ∧
       (performance_counters_stop env st).err =
         some "Failed get thread counters after") := by
  by_cases h : env.read_after_ret = 0 <;>
    simp [performance_counters_stop, h]

/-- Claim C1 witness: successful read with failing teardown oracles: all
teardown calls happen and no error is reported. -/
theorem stop_teardown_on_successful_read_only_witness :
    (performance_counters_stop ⟨0, [], 7, 8, 9⟩ ⟨[], []⟩).calls =
      [StopCall.readAfter, StopCall.disableCounting,
       StopCall.disableThreadCounting, StopCall.releaseForcedCtrs] ∧
    (performance_counters_stop ⟨0, [], 7, 8, 9⟩ ⟨[], []⟩).err = none :=
  (stop_teardown_on_successful_read_only ⟨0, [], 7, 8, 9⟩ ⟨[], []⟩).1 rfl

/-- Claim C2 counterexample: in the stop teardown the global-counting
disable comes strictly before the thread-counting disable, so the order
is not "thread counting first". -/
theorem stop_teardown_order_global_first :
    (performance_counters_stop ⟨0, [], 0, 0, 0⟩ ⟨[], []⟩).calls =
      [StopCall.readAfter, StopCall.disableCounting,
       StopCall.disableThreadCounting, StopCall.releaseForcedCtrs] ∧
    List.indexOf StopCall.disableCounting
        (performance_counters_stop ⟨0, [], 0, 0, 0⟩ ⟨[], []⟩).calls <
      List.indexOf StopCall.disableThreadCounting
        (performance_counters_stop ⟨0, [], 0, 0, 0⟩ ⟨[], []⟩).calls := by
  exact ⟨rfl, by decide⟩

/-- Claim C2 (amended): after a successful "after" snapshot read the
teardown calls are performed in the order: disable global counting, then
disable thread counting, then release the forced-counter reservation. -/
theorem stop_teardown_order (env : StopEnv) (st : StopState)
    (h : env.read_after_ret = 0) :
    (performance_counters_stop env st).calls =
      [StopCall.readAfter, StopCall.disableCounting,
       StopCall.disableThreadCounting, StopCall.releaseForcedCtrs] := by
  simp [performance_counters_stop, h]

/-- Claim C2 witness. -/
theorem stop_teardown_order_witness :
    (performance_counters_stop ⟨0, [5], 0, 0, 0⟩ ⟨[1], [0]⟩).calls =
      [StopCall.readAfter, StopCall.disableCounting,
       StopCall.disableThreadCounting, StopCall.releaseForcedCtrs] :=
  stop_teardown_order ⟨0, [5], 0, 0, 0⟩ ⟨[1], [0]⟩ rfl

theorem sub64_eq_sub (a b : Nat) (hle : b ≤ a) (hlt : a < 2 ^ 64) :
    sub64 a b = a - b := by
  have hb : b < 2 ^ 64 := lt_of_le_of_lt hle hlt
  unfold sub64
  rw [Nat.mod_eq_of_lt hlt, Nat.mod_eq_of_lt hb, Nat.add_sub_assoc hle,
    Nat.add_mod_left, Nat.mod_eq_of_lt (lt_of_le_of_lt (Nat.sub_le a b) hlt)]

theorem range_four : List.range 4 = [0, 1, 2, 3] := rfl

/-- Claim C6: after a successful read, `performance_counters_stop`
computes, for each of the first four events, the delta
`after[map[i]] - before[map[i]]` (u64 arithmetic; stated here under the
no-wraparound hypothesis that the before value does not exceed the after
value). -/
theorem stop_delta_computation (env : StopEnv) (st : StopState) (i : Nat)
    (hi : i < 4) (hret : env.read_after_ret = 0)
    (hle : st.counters_0.getD (st.counter_map.getD i 0) 0 ≤
           env.read_after_vals.getD (st.counter_map.getD i 0) 0)
    (hlt : env.read_after_vals.getD (st.counter_map.getD i 0) 0 < 2 ^ 64) :
    (performance_counters_stop env st).values.getD i 0 =
      env.read_after_vals.getD (st.counter_map.getD i 0) 0 -
        st.counters_0.getD (st.counter_map.getD i 0) 0 := by
  interval_cases i <;>
    simpa [performance_counters_stop, hret, range_four] using
      sub64_eq_sub _ _ hle hlt

/-- Claim C6 witness: the specification example, before = [10, 20],
after = [15, 45], map = [0, 1], deltas 5 and 25. -/
theorem stop_delta_computation_witness :
    (performance_counters_stop ⟨0, [15, 45], 0, 0, 0⟩ ⟨[10, 20], [0, 1]⟩).values.getD 0 0 = 5 ∧
    (performance_counters_stop ⟨0, [15, 45], 0, 0, 0⟩ ⟨[10, 20], [0, 1]⟩).values.getD 1 0 = 25 := by
  constructor
  · exact (stop_delta_computation ⟨0, [15, 45], 0, 0, 0⟩ ⟨[10, 20], [0, 1]⟩ 0
      (by decide) rfl (by decide) (by decide)).trans (by decide)
  · exact (stop_delta_computation ⟨0, [15, 45], 0, 0, 0⟩ ⟨[10, 20], [0, 1]⟩ 1
      (by decide) rfl (by decide) (by decide)).trans (by decide)

/-- Claim C3: `get_event` equals the specification-side first-match
resolution (candidates before the NULL terminator tried in list order,
first database hit returned, `none` when no candidate matches), and when
resolution of the profile events fails, `performance_counters_init`
surfaces the display name of the failing alias as its error. -/
theorem get_event_first_match :
    (∀ (dbf : String → Option Nat) (a : event_alias),
       get_event dbf a = resolve_spec dbf a) ∧
    (∀ (env : InitEnv) (e : String),
       env.lib_ok = true → env.force_get_ret = 0 → env.db_create_ret = 0 →
       env.config_create_ret = 0 → env.force_counters_ret = 0 →
       resolve_all env.dbf profile_events = Except.error e →
       (performance_counters_init env).err = some e) := by
  constructor
  · intro dbf a
    exact get_event_loop_eq_spec dbf a.names
  · intro env e h1 h2 h3 h4 h5 hres
    simp only [performance_counters_init, h1, h2, h3, h4, h5, hres]
    simp [init_error]

/-- Claim C3 witness: an empty database resolves no candidate of the
first alias, and init reports the display name "cycles". -/
theorem get_event_first_match_witness :
    get_event (fun _ => none) ⟨"cycles",
      [some "FIXED_CYCLES", some "CPU_CLK_UNHALTED.THREAD",
       some "CPU_CLK_UNHALTED.CORE", none, none, none, none, none]⟩ =
      resolve_spec (fun _ => none) ⟨"cycles",
      [some "FIXED_CYCLES", some "CPU_CLK_UNHALTED.THREAD",
       some "CPU_CLK_UNHALTED.CORE", none, none, none, none, none]⟩ ∧
    (performance_counters_init
      ⟨true, "", 0, 0, (fun _ => none), 0, 0, (fun _ => 0),
       0, 0, 0, 0, [], 0, [], 0, 0, 0⟩).err = some "cycles" := by
  constructor
  · exact get_event_first_match.1 (fun _ => none) _
  · exact get_event_first_match.2
      ⟨true, "", 0, 0, (fun _ => none), 0, 0, (fun _ => 0),
       0, 0, 0, 0, [], 0, [], 0, 0, 0⟩ "cycles" rfl rfl rfl rfl rfl rfl

/-- Claim C7: once every step of `performance_counters_init` before the
register write has succeeded, `kpc_set_config` is invoked if and only if
the active class mask includes the configurable class and the register
count is at least one; in particular a fixed-only mask with register
count zero skips the write and the initialization succeeds. -/
theorem init_writes_registers_iff (env : InitEnv)
    (h1 : env.lib_ok = true) (h2 : env.force_get_ret = 0)
    (h3 : env.db_create_ret = 0) (h4 : env.config_create_ret = 0)
    (h5 : env.force_counters_ret = 0)
    (h6 : ∀ i, env.add_event_ret i = 0)
    (h7 : env.classes_ret = 0) (h8 : env.count_ret = 0)
    (h9 : env.map_ret = 0) (h10 : env.regs_ret = 0)
    (h11 : env.force_set_ret = 0)
    (evs : List Nat)
    (h12 : resolve_all env.dbf profile_events = Except.ok evs) :
    ((performance_counters_init env).wrote_config = true ↔
       (env.classes_out &&& KPC_CLASS_CONFIGURABLE_MASK ≠ 0 ∧ env.count_out ≠ 0)) ∧
    (env.classes_out = KPC_CLASS_FIXED_MASK → env.count_out = 0 →
       (performance_counters_init env).err = none ∧
       (performance_counters_init env).wrote_config = false ∧
       (performance_counters_init env).reg_count = 0) := by
  have hfind : (List.range ev_count).find?
      (fun i => decide (env.add_event_ret i ≠ 0)) = none := by
    refine List.find?_eq_none.mpr fun i _ => ?_
    simp [h6 i]
  simp only [performance_counters_init, h1, h2, h3, h4, h5, h12, hfind, h7,
    h8, h9, h10, h11]
  by_cases hc : env.classes_out &&& KPC_CLASS_CONFIGURABLE_MASK ≠ 0 ∧ env.count_out ≠ 0
  · constructor
    · by_cases hs : env.set_config_ret = 0 <;> simp [hc, hs]
    · intro hcl hcnt
      exact absurd hcnt hc.2
  · constructor
    · simp [hc]
    · intro hcl hcnt
      simp [hc, hcnt]

/-- Claim C7 witness: fixed-only class mask, register count zero, all
earlier steps succeeding: the write step is skipped (even with a failing
`kpc_set_config` oracle) and init returns success. -/
theorem init_writes_registers_iff_witness :
    (performance_counters_init
      ⟨true, "", 0, 0, (fun _ => some 0), 0, 0, (fun _ => 0),
       KPC_CLASS_FIXED_MASK, 0, 0, 0, [], 0, [], 0, 0, 5⟩).err = none ∧
    (performance_counters_init
      ⟨true, "", 0, 0, (fun _ => some 0), 0, 0, (fun _ => 0),
       KPC_CLASS_FIXED_MASK, 0, 0, 0, [], 0, [], 0, 0, 5⟩).wrote_config = false := by
  have h := (init_writes_registers_iff
    ⟨true, "", 0, 0, (fun _ => some 0), 0, 0, (fun _ => 0),
     KPC_CLASS_FIXED_MASK, 0, 0, 0, [], 0, [], 0, 0, 5⟩
    rfl rfl rfl rfl rfl (fun _ => rfl) rfl rfl rfl rfl rfl
    [0, 0, 0, 0] rfl).2 rfl rfl
  exact ⟨h.1, h.2.1⟩

/-- Claim C4 counterexample: after a failed bind (first dlopen fails), a
subsequent call in an environment where every load would now succeed
still returns false from the cached-failure state, with no load step
performed: the failure is cached, the load is not retried. -/
theorem lib_init_caches_failure :
    lib_init ⟨true, true, "", (fun _ => true), (fun _ => true)⟩
        (lib_init ⟨false, true, "img not found", (fun _ => true), (fun _ => true)⟩
          lib_state_initial).2.1 =
      (false,
       (lib_init ⟨false, true, "img not found", (fun _ => true), (fun _ => true)⟩
         lib_state_initial).2.1,
       []) := by
  rfl

/-- Claim C4 (amended): repeated calls after a completed bind return the
cached outcome with no load step performed; after a failed bind all
handles and symbol pointers are cleared, but `lib_inited` and
`lib_has_err` remain set, so any subsequent call returns the cached
failure without retrying the load. -/
theorem lib_init_idempotent_cached (env env2 : LibEnv) (st : LibState) :
    (st.inited = true →
       lib_init env st = (! st.has_err, st, [])) ∧
    (st.inited = false → (lib_init env st).1 = false →
       (lib_init env st).2.1.inited = true ∧
       (lib_init env st).2.1.has_err = true ∧
       (lib_init env st).2.1.handle_kperf = false ∧
       (lib_init env st).2.1.handle_kperfdata = false ∧
       (lib_init env st).2.1.syms_kperf =
         List.replicate lib_symbols_kperf.length false ∧
       (lib_init env st).2.1.syms_kperfdata =
         List.replicate lib_symbols_kperfdata.length false ∧
       lib_init env2 (lib_init env st).2.1 =
         (false, (lib_init env st).2.1, [])) := by
  constructor
  · intro h
    simp [lib_init, h]
  · intro h hfail
    have hfields : ∀ msg,
        (lib_fail msg st).inited = true ∧
        (lib_fail msg st).has_err = true ∧
        (lib_fail msg st).handle_kperf = false ∧
        (lib_fail msg st).handle_kperfdata = false ∧
        (lib_fail msg st).syms_kperf =
          List.replicate lib_symbols_kperf.length false ∧
        (lib_fail msg st).syms_kperfdata =
          List.replicate lib_symbols_kperfdata.length false ∧
        lib_init env2 (lib_fail msg st) = (false, lib_fail msg st, []) := by
      intro msg
      refine ⟨rfl, rfl, rfl, rfl, rfl, rfl, ?_⟩
      simp [lib_init, lib_fail, lib_deinit]
    by_cases hk1 : env.dlopen_kperf_ok
    · by_cases hk2 : env.dlopen_kperfdata_ok
      · cases hf1 : (List.range lib_symbols_kperf.length).find?
            (fun i => ! env.dlsym_kperf i) with
        | some i =>
          have heq : lib_init env st =
              (false,
               lib_fail ("Failed to load kperf function: " ++
                 lib_symbols_kperf.getD i "" ++ ".") st,
               [LibCall.dlopenKperf, LibCall.dlopenKperfdata,
                LibCall.dlsymKperf]) := by
            simp [lib_init, h, hk1, hk2, hf1]
          rw [heq]
          exact hfields _
        | none =>
          cases hf2 : (List.range lib_symbols_kperfdata.length).find?
              (fun i => ! env.dlsym_kperfdata i) with
          | some i =>
            have heq : lib_init env st =
                (false,
                 lib_fail ("Failed to load kperfdata function: " ++
                   lib_symbols_kperfdata.getD i "" ++ ".") st,
                 [LibCall.dlopenKperf, LibCall.dlopenKperfdata,
                  LibCall.dlsymKperf, LibCall.dlsymKperfdata]) := by
              simp [lib_init, h, hk1, hk2, hf1, hf2]
            rw [heq]
            exact hfields _
          | none =>
            exfalso
            simp [lib_init, h, hk1, hk2, hf1, hf2] at hfail
      · have heq : lib_init env st =
            (false,
             lib_fail ("Failed to load kperfdata.framework, message: " ++
               env.dlerror_msg ++ ".") st,
             [LibCall.dlopenKperf, LibCall.dlopenKperfdata]) := by
          simp [lib_init, h, hk1, hk2]
        rw [heq]
        exact hfields _
    · have heq : lib_init env st =
          (false,
           lib_fail ("Failed to load kperf.framework, message: " ++
             env.dlerror_msg ++ ".") st,
           [LibCall.dlopenKperf]) := by
        simp [lib_init, h, hk1]
      rw [heq]
      exact hfields _

/-- Claim C4 witness: a failed first dlopen leaves a torn-down but
cached-failure state; a retry against a fully working environment still
returns false with no load attempted. -/
theorem lib_init_idempotent_cached_witness :
    (lib_init ⟨false, false, "x", (fun _ => true), (fun _ => true)⟩
        lib_state_initial).2.1.syms_kperf =
      List.replicate lib_symbols_kperf.length false ∧
    lib_init ⟨true, true, "", (fun _ => true), (fun _ => true)⟩
        (lib_init ⟨false, false, "x", (fun _ => true), (fun _ => true)⟩
          lib_state_initial).2.1 =
      (false,
       (lib_init ⟨false, false, "x", (fun _ => true), (fun _ => true)⟩
         lib_state_initial).2.1,
       []) := by
  have h := (lib_init_idempotent_cached
    ⟨false, false, "x", (fun _ => true), (fun _ => true)⟩
    ⟨true, true, "", (fun _ => true), (fun _ => true)⟩
    lib_state_initial).2 rfl rfl
  exact ⟨h.2.2.2.2.1, h.2.2.2.2.2.2⟩

theorem spec_cont_run_cons_pos (tid : Nat) (b : kd_buf) (rest : List kd_buf)
    (h1 : kd_tid b = tid) (h2 : kd_func b ≠ DBG_FUNC_START) :
    spec_cont_run tid (b :: rest) = b :: spec_cont_run tid rest := by
  simp [spec_cont_run, List.takeWhile_cons, h1, h2]

theorem spec_cont_run_cons_neg (tid : Nat) (b : kd_buf) (rest : List kd_buf)
    (h : kd_tid b ≠ tid ∨ kd_func b = DBG_FUNC_START) :
    spec_cont_run tid (b :: rest) = [] := by
  rcases h with h | h <;> simp [spec_cont_run, List.takeWhile_cons, h]

theorem collect_cont_eq_spec (cc tid : Nat) :
    ∀ (bufs : List kd_buf) (acc : List Nat), acc.length ≤ cc →
      collect_cont cc tid acc bufs =
        (acc ++ (spec_cont_run tid bufs).flatMap kd_args).take cc
  | [], acc, h => by
    simp [collect_cont, spec_cont_run, List.take_of_length_le h]
  | b :: rest, acc, h => by
    by_cases h1 : kd_tid b = tid
    · by_cases h2 : kd_func b = DBG_FUNC_START
      · rw [collect_cont, if_neg (by simp [h1]), if_pos h2,
          spec_cont_run_cons_neg tid b rest (Or.inr h2)]
        simp [List.take_of_length_le h]
      · rw [collect_cont, if_neg (by simp [h1]), if_neg h2,
          spec_cont_run_cons_pos tid b rest h1 h2]
        have hacc2 : acc ++ List.take (cc - acc.length) (kd_args b) =
            (acc ++ kd_args b).take cc := by
          rw [List.take_append_eq_append_take, List.take_of_length_le h]
        by_cases h3 : (acc ++ List.take (cc - acc.length) (kd_args b)).length = cc
        · rw [if_pos h3, hacc2]
          have hlen : cc ≤ (acc ++ kd_args b).length := by
            rw [hacc2, List.length_take] at h3
            omega
          rw [List.flatMap_cons, ← List.append_assoc,
            List.take_append_of_le_length hlen]
        · rw [if_neg h3]
          have hshort : (acc ++ kd_args b).length < cc := by
            rw [hacc2, List.length_take] at h3
            omega
          have hacc2' : acc ++ List.take (cc - acc.length) (kd_args b) =
              acc ++ kd_args b := by
            rw [hacc2, List.take_of_length_le (Nat.le_of_lt hshort)]
          rw [hacc2', collect_cont_eq_spec cc tid rest (acc ++ kd_args b)
            (Nat.le_of_lt hshort), List.flatMap_cons, ← List.append_assoc]
    · rw [collect_cont, if_pos h1, spec_cont_run_cons_neg tid b rest (Or.inl h1)]
      simp [List.take_of_length_le h]

theorem decode_sample_length (cc : Nat) (b : kd_buf) (rest : List kd_buf)
    (cs : List Nat) (h : decode_sample cc b rest = some cs) :
    cs.length = cc := by
  by_cases hlt : (kd_args b).length < cc
  · by_cases hc : (collect_cont cc (kd_tid b) (kd_args b) rest).length = cc
    · have heq : decode_sample cc b rest =
          some (collect_cont cc (kd_tid b) (kd_args b) rest) := by
        simp [decode_sample, hlt, hc]
      rw [heq] at h
      injection h with h'
      rw [← h']
      exact hc
    · have heq : decode_sample cc b rest = none := by
        simp [decode_sample, hlt, hc]
      simp [heq] at h
  · by_cases hc : (kd_args b).length = cc
    · have heq : decode_sample cc b rest = some (kd_args b) := by
        simp [decode_sample, hlt, hc]
      rw [heq] at h
      injection h with h'
      rw [← h']
      exact hc
    · have heq : decode_sample cc b rest = none := by
        simp [decode_sample, hlt, hc]
      simp [heq] at h

theorem decode_all_sample_lengths (cc : Nat) :
    ∀ (bufs : List kd_buf) (s : Nat × Nat × List Nat),
      s ∈ decode_all cc bufs → s.2.2.length = cc
  | [], s, h => by simp [decode_all] at h
  | b :: rest, s, h => by
    rw [decode_all] at h
    by_cases hb : kd_func b = DBG_FUNC_START ∧ kd_tid b ≠ 0
    · rw [if_pos hb] at h
      cases hd : decode_sample cc b rest with
      | some cs =>
        rw [hd] at h
        rcases List.mem_cons.mp h with h1 | h1
        · rw [h1]
          exact decode_sample_length cc b rest cs hd
        · exact decode_all_sample_lengths cc rest s h1
      | none =>
        rw [hd] at h
        exact decode_all_sample_lengths cc rest s h
    · rw [if_neg hb] at h
      exact decode_all_sample_lengths cc rest s h

/-- Claim C8: every sample emitted by the decode scan has exactly
`counter_count` values (no partial sample is ever emitted), and a start
record followed by its continuation run decodes to the specification-side
sample: the four argument words of the start record followed, in order,
by the argument words of the immediately following records with the same
thread id and no start flag, truncated at `counter_count` values; the
sample is emitted exactly when that run provides `counter_count` values
before being cut off by a differing thread id, a new start record, or the
end of the log. -/
theorem trace_decode_reassembly (cc : Nat) (hcc : 4 ≤ cc) :
    (∀ (bufs : List kd_buf) (s : Nat × Nat × List Nat),
       s ∈ decode_all cc bufs → s.2.2.length = cc) ∧
    (∀ (b : kd_buf) (rest : List kd_buf),
       decode_sample cc b rest =
         if (spec_sample cc b rest).length = cc then some (spec_sample cc b rest)
         else none) := by
  constructor
  · exact decode_all_sample_lengths cc
  · intro b rest
    by_cases h4 : (4 : Nat) < cc
    · have hcoll : collect_cont cc (kd_tid b) (kd_args b) rest =
          spec_sample cc b rest := by
        have h := collect_cont_eq_spec cc (kd_tid b) rest (kd_args b)
          (by simpa [kd_args] using Nat.le_of_lt h4)
        rw [h]
        rfl
      have hlt : (kd_args b).length < cc := by simpa [kd_args] using h4
      unfold decode_sample
      rw [if_pos hlt, hcoll]
    · have hc4 : cc = 4 := Nat.le_antisymm (Nat.not_lt.mp h4) hcc
      subst hc4
      have hspec : spec_sample 4 b rest = kd_args b := by
        unfold spec_sample
        rw [List.take_append_of_le_length (by simp [kd_args]),
          List.take_of_length_le (by simp [kd_args])]
      have hnlt : ¬ (kd_args b).length < 4 := by simp [kd_args]
      unfold decode_sample
      rw [if_neg hnlt, hspec]

/-- Claim C8 witness: the specification test stream: thread id 7, start
record with args [1,2,3,4], continuation record with args [5,0,0,0],
`counter_count` 5, decodes to the single complete sample [1,2,3,4,5];
without the continuation record the sample is truncated and discarded. -/
theorem trace_decode_reassembly_witness :
    decode_sample 5 ⟨100, 1, 2, 3, 4, 7, 1⟩ [⟨101, 5, 0, 0, 0, 7, 2⟩] =
      some [1, 2, 3, 4, 5] ∧
    decode_sample 5 ⟨100, 1, 2, 3, 4, 7, 1⟩ [] = none ∧
    decode_all 5 [⟨100, 1, 2, 3, 4, 7, 1⟩, ⟨101, 5, 0, 0, 0, 7, 2⟩] =
      [(7, 100, [1, 2, 3, 4, 5])] := by
  have h := (trace_decode_reassembly 5 (by decide)).2
  refine ⟨?_, ?_, by decide⟩
  · rw [h ⟨100, 1, 2, 3, 4, 7, 1⟩ [⟨101, 5, 0, 0, 0, 7, 2⟩]]
    decide
  · rw [h ⟨100, 1, 2, 3, 4, 7, 1⟩ []]
    decide

theorem record_sample_tid (d : kpc_thread_data) (ts : Nat) (cs : List Nat) :
    (record_sample d ts cs).tid = d.tid := by
  unfold record_sample
  split <;> rfl

theorem find?_add_thread_sample (ts : Nat) (cs : List Nat) (t tid : Nat) :
    ∀ th : List kpc_thread_data,
      (add_thread_sample ts cs t th).find? (fun d => d.tid == tid) =
        if t = tid then
          some (record_sample
            ((th.find? (fun d => d.tid == tid)).getD (thread_data_zero tid)) ts cs)
        else th.find? (fun d => d.tid == tid)
  | [] => by
    rw [add_thread_sample]
    by_cases ht : t = tid
    · subst ht
      rw [if_pos rfl,
        List.find?_cons_of_pos _ (by simp [record_sample_tid, thread_data_zero])]
      rfl
    · rw [if_neg ht,
        List.find?_cons_of_neg _ (by simp [record_sample_tid, thread_data_zero, ht])]
  | d :: rest => by
    rw [add_thread_sample]
    by_cases hd : d.tid = t
    · rw [if_pos hd]
      by_cases ht : t = tid
      · subst ht
        rw [if_pos rfl,
          List.find?_cons_of_pos _ (by simp [record_sample_tid, hd]),
          List.find?_cons_of_pos _ (by simp [hd])]
        rfl
      · rw [if_neg ht,
          List.find?_cons_of_neg _ (by simp [record_sample_tid, hd, ht]),
          List.find?_cons_of_neg _ (by simp [hd, ht])]
    · rw [if_neg hd]
      by_cases hdt : d.tid = tid
      · by_cases ht : t = tid
        · exact absurd (hdt.trans ht.symm) hd
        · rw [if_neg ht,
            List.find?_cons_of_pos _ (by simp [hdt]),
            List.find?_cons_of_pos _ (by simp [hdt])]
      · rw [List.find?_cons_of_neg _ (by simp [hdt]),
          List.find?_cons_of_neg _ (by simp [hdt])]
        exact find?_add_thread_sample ts cs t tid rest

theorem find?_foldl_add (tid : Nat) :
    ∀ (samples : List (Nat × Nat × List Nat)) (th : List kpc_thread_data),
      ((samples.foldl (fun th s => add_thread_sample s.2.1 s.2.2 s.1 th) th).find?
          (fun d => d.tid == tid)) =
        (samples.filter (fun s => s.1 == tid)).foldl
          (fun o s => some (record_sample (o.getD (thread_data_zero tid)) s.2.1 s.2.2))
          (th.find? (fun d => d.tid == tid))
  | [], th => rfl
  | s :: ss, th => by
    rw [List.foldl_cons, find?_foldl_add tid ss, List.filter_cons]
    by_cases hs : s.1 = tid
    · rw [if_pos (by simp [hs]), List.foldl_cons, find?_add_thread_sample,
        if_pos hs]
    · rw [if_neg (by simp [hs]), find?_add_thread_sample, if_neg hs]

theorem per_tid_fold_char (tid : Nat) :
    ∀ (ss : List (Nat × Nat × List Nat)) (d : kpc_thread_data),
      d.timestamp_0 ≠ 0 →
      ∃ d', ss.foldl
          (fun o s => some (record_sample (o.getD (thread_data_zero tid)) s.2.1 s.2.2))
          (some d) = some d' ∧
        d'.tid = d.tid ∧ d'.timestamp_0 = d.timestamp_0 ∧
        d'.counters_0 = d.counters_0 ∧
        (ss = [] → d' = d) ∧
        (∀ sl, ss.getLast? = some sl →
           d'.timestamp_1 = sl.2.1 ∧ d'.counters_1 = sl.2.2)
  | [], d, h => ⟨d, rfl, rfl, rfl, rfl, fun _ => rfl, by simp⟩
  | s :: ss, d, h => by
    rw [List.foldl_cons]
    have hrec : record_sample d s.2.1 s.2.2 =
        { d with timestamp_1 := s.2.1, counters_1 := s.2.2 } := by
      unfold record_sample
      rw [if_neg h]
    obtain ⟨d', hfold, htid, hts0, hcs0, hnil, hlast⟩ :=
      per_tid_fold_char tid ss (record_sample d s.2.1 s.2.2)
        (by rw [hrec]; exact h)
    refine ⟨d', hfold, ?_, ?_, ?_, ?_, ?_⟩
    · rw [htid, hrec]
    · rw [hts0, hrec]
    · rw [hcs0, hrec]
    · intro habs
      exact absurd habs (List.cons_ne_nil s ss)
    · intro sl hsl
      cases ss with
      | nil =>
        rw [List.getLast?_singleton] at hsl
        injection hsl with hsl'
        subst hsl'
        have hd' : d' = record_sample d s.2.1 s.2.2 := hnil rfl
        rw [hd', hrec]
        exact ⟨rfl, rfl⟩
      | cons s2 ss2 =>
        rw [List.getLast?_cons_cons] at hsl
        exact hlast sl hsl

theorem countP_add_thread_sample (ts : Nat) (cs : List Nat) (t tid : Nat) :
    ∀ th : List kpc_thread_data,
      (add_thread_sample ts cs t th).countP (fun d => d.tid == tid) =
        th.countP (fun d => d.tid == tid) +
          (if t = tid ∧ th.find? (fun d => d.tid == t) = none then 1 else 0)
  | [] => by
    rw [add_thread_sample]
    by_cases ht : t = tid
    · subst ht
      simp [List.countP_cons, record_sample_tid, thread_data_zero]
    · simp [List.countP_cons, record_sample_tid, thread_data_zero, ht]
  | d :: rest => by
    rw [add_thread_sample]
    by_cases hd : d.tid = t
    · rw [if_pos hd, List.countP_cons, List.countP_cons,
        List.find?_cons_of_pos _ (by simp [hd])]
      simp [record_sample_tid]
    · rw [if_neg hd, List.countP_cons, List.countP_cons,
        List.find?_cons_of_neg _ (by simp [hd]),
        countP_add_thread_sample ts cs t tid rest]
      omega

theorem countP_foldl_add (tid : Nat) :
    ∀ (samples : List (Nat × Nat × List Nat)) (th : List kpc_thread_data),
      ((samples.foldl (fun th s => add_thread_sample s.2.1 s.2.2 s.1 th) th).countP
          (fun d => d.tid == tid)) =
        th.countP (fun d => d.tid == tid) +
          (if (∃ s ∈ samples, s.1 = tid) ∧
              th.find? (fun d => d.tid == tid) = none
           then 1 else 0)
  | [], th => by simp
  | s :: ss, th => by
    rw [List.foldl_cons, countP_foldl_add tid ss,
      countP_add_thread_sample, find?_add_thread_sample]
    by_cases hs : s.1 = tid
    · rw [hs]
      have hex : ∃ x ∈ s :: ss, x.1 = tid := ⟨s, List.mem_cons_self s ss, hs⟩
      by_cases hf : th.find? (fun d => d.tid == tid) = none
      · simp [hf, hex]
        rw [if_pos ⟨hex, hf⟩]
      · simp [hf, hex]
    · have hex : (∃ x ∈ s :: ss, x.1 = tid) ↔ (∃ x ∈ ss, x.1 = tid) := by
        simp [hs]
      simp [hs, hex]
      rw [if_neg hs]
      exact if_congr (and_congr_left' hex.symm) rfl rfl

/-- Claim C9 (amended): over any decoded sample stream whose timestamps
are all nonzero (the code uses a zero `timestamp_0` as the empty-slot
sentinel), the aggregation produces exactly one thread-data entry per
occurring thread id; its start snapshot is the first complete sample of
that thread and stays unchanged, while the end snapshot always holds the
latest complete sample: the second sample fills it and any third or later
sample overwrites only it. -/
theorem per_thread_sample_accumulation (samples : List (Nat × Nat × List Nat))
    (hts : ∀ s ∈ samples, s.2.1 ≠ 0) (tid : Nat) :
    ((aggregate_samples samples).countP (fun d => d.tid == tid) =
       if samples.filter (fun s => s.1 == tid) = [] then 0 else 1) ∧
    (∀ s1 rest, samples.filter (fun s => s.1 == tid) = s1 :: rest →
       ∃ d, (aggregate_samples samples).find? (fun d => d.tid == tid) = some d ∧
         d.tid = tid ∧ d.timestamp_0 = s1.2.1 ∧ d.counters_0 = s1.2.2 ∧
         (rest = [] → d.timestamp_1 = 0 ∧ d.counters_1 = []) ∧
         (∀ sl, rest.getLast? = some sl →
            d.timestamp_1 = sl.2.1 ∧ d.counters_1 = sl.2.2)) := by
  constructor
  · have h := countP_foldl_add tid samples []
    simp only [aggregate_samples]
    rw [h]
    by_cases hex : ∃ s ∈ samples, s.1 = tid
    · have hne : samples.filter (fun s => s.1 == tid) ≠ [] := by
        obtain ⟨s, hmem, hstid⟩ := hex
        intro habs
        exact absurd (habs ▸ List.mem_filter.mpr ⟨hmem, by simp [hstid]⟩)
          (List.not_mem_nil s)
      simp [hex, hne]
    · have hnil : samples.filter (fun s => s.1 == tid) = [] := by
        refine List.filter_eq_nil_iff.mpr fun s hmem => ?_
        simp only [beq_iff_eq]
        exact fun hstid => hex ⟨s, hmem, hstid⟩
      simp [hex, hnil]
  · intro s1 rest hfil
    have hbase := find?_foldl_add tid samples []
    have hs1mem : s1 ∈ samples := by
      have hmem : s1 ∈ samples.filter (fun s => s.1 == tid) := by
        rw [hfil]
        exact List.mem_cons_self s1 rest
      exact List.mem_of_mem_filter hmem
    have hrec0 : record_sample (thread_data_zero tid) s1.2.1 s1.2.2 =
        ⟨tid, s1.2.1, 0, s1.2.2, []⟩ := by
      unfold record_sample thread_data_zero
      simp
    obtain ⟨d, hfold, htid, hts0, hcs0, hnil, hlast⟩ :=
      per_tid_fold_char tid rest (record_sample (thread_data_zero tid) s1.2.1 s1.2.2)
        (by rw [hrec0]; exact hts s1 hs1mem)
    refine ⟨d, ?_, ?_, ?_, ?_, ?_, hlast⟩
    · simp only [aggregate_samples]
      rw [hbase, hfil, List.foldl_cons]
      exact hfold
    · rw [htid, hrec0]
    · rw [hts0, hrec0]
    · rw [hcs0, hrec0]
    · intro hr
      rw [hnil hr, hrec0]
      exact ⟨rfl, rfl⟩

/-- Claim C9 witness: three complete samples for thread 7 with nonzero
timestamps: one entry results, starting snapshot from the first sample,
end snapshot from the third (latest). -/
theorem per_thread_sample_accumulation_witness :
    (aggregate_samples [(7, 3, [1]), (7, 9, [2]), (7, 11, [5])]).countP
        (fun d => d.tid == 7) = 1 ∧
    (aggregate_samples [(7, 3, [1]), (7, 9, [2]), (7, 11, [5])]).find?
        (fun d => d.tid == 7) = some ⟨7, 3, 11, [1], [5]⟩ := by
  have h := per_thread_sample_accumulation
    [(7, 3, [1]), (7, 9, [2]), (7, 11, [5])] (by decide) 7
  exact ⟨h.1.trans (by decide), by decide⟩

/-- Claim C9 counterexample: with a first complete sample carrying
timestamp 0 (the empty-slot sentinel value), the second complete sample
for the same thread id is stored into the start slot again, not the end
slot: the end snapshot stays empty and the start snapshot is
overwritten. -/
theorem per_thread_sample_accumulation_zero_ts :
    decode_and_aggregate 4 [⟨0, 1, 2, 3, 4, 7, 1⟩, ⟨10, 5, 6, 7, 8, 7, 1⟩] =
      [⟨7, 10, 0, [5, 6, 7, 8], []⟩] := by
  decide

end HwPerfCounters
